import Mathlib

set_option maxRecDepth 4000

/-!
Shallow embedding of the tenant quota / plan-enforcement subsystem of the
`topvetnexuspro` backend (`src/backend/src/utils/serverHelpers.ts`,
`src/backend/src/server.ts`, `src/backend/src/routes.ts`).

JavaScript numbers are modelled as rationals (`ℚ`); usage counts computed by
the ORM (`_count`) are naturals.  A JSON field that may be absent is an
`Option`; the JS falsy test `x || 1` on a number is modelled explicitly.
Thrown errors are `Except`; the database is an explicit `Store` value.
-/

namespace VetNexus

/-- The `modules` map inside a plan's `limits` JSON payload
(`serverHelpers.ts`, `DEFAULT_PLANS`). -/
structure Modules where
  pos : Bool
  lab : Bool
  ai : Bool
  reports : Bool
  multiBranch : Bool
  print : Option Bool := none
  aiLimit : Option ℚ := none
deriving DecidableEq, Repr

/-- The parsed `limits` JSON payload of a Plan: `maxUsers`, `maxClients`
(with `-1` the "unlimited" sentinel), `maxStorageGB` (possibly absent in a
hand-written payload, hence `Option`), and the feature-module map. -/
structure Limits where
  maxUsers : ℚ
  maxClients : ℚ
  maxStorageGB : Option ℚ
  modules : Modules
deriving DecidableEq, Repr

/-- A Plan row (`prisma.plan`).  The source stores `features` and `limits`
as JSON strings; here `limits` is kept in parsed form. -/
structure Plan where
  id : String
  name : String
  priceMonthly : ℚ
  priceYearly : ℚ
  features : List String
  limits : Limits
deriving DecidableEq, Repr

/-- A Tenant row together with the `_count` relation counts that
`checkLimits` fetches via its `include` clause. -/
structure Tenant where
  id : String
  name : String
  plan : String
  status : String
  storageUsed : ℚ
  countUsers : ℕ
  countPets : ℕ
  countOwners : ℕ
deriving DecidableEq, Repr

/-- A User row (the fields the `POST /users` handler writes). -/
structure User where
  id : String
  tenantId : String
  name : String
  email : String
deriving DecidableEq, Repr

/-- An Owner ("client") row (the fields the `POST /owners` handler writes). -/
structure Owner where
  id : String
  tenantId : String
deriving DecidableEq, Repr

/-- The relational store: the tables this subsystem touches. -/
structure Store where
  tenants : List Tenant
  plans : List Plan
  users : List User
  owners : List Owner
deriving DecidableEq, Repr

/-- Model of `prisma.tenant.findUnique({ where: { id } })` on a list store. -/
def findById (l : List Tenant) (i : String) : Option Tenant :=
  l.find? (fun t => t.id == i)

/-- Model of `prisma.plan.findUnique({ where: { id } })`. -/
def findPlanById (l : List Plan) (i : String) : Option Plan :=
  l.find? (fun p => p.id == i)

/-- The resource categories accepted by `checkLimits`. -/
inductive ResourceType where
  | storage
  | users
  | clients
deriving DecidableEq, Repr

/-- The errors `checkLimits` can throw.  The quota errors carry the numeric
limit embedded in the thrown message (`${limits.maxStorageGB}GB limit`,
`${limits.maxUsers} users max`, `${limits.maxClients} clients max`). -/
inductive CheckError where
  | tenantNotFound
  | accountRestricted
  | storageQuotaExceeded (maxStorageGB : Option ℚ)
  | userLimitReached (maxUsers : ℚ)
  | clientLimitReached (maxClients : ℚ)
deriving DecidableEq, Repr

/-- The effective storage limit in MB: `(limits.maxStorageGB || 1) * 1024`.
A JS number is falsy exactly when it is `0` (or absent/`undefined`). -/
def maxStorageMB (limits : Limits) : ℚ :=
  (match limits.maxStorageGB with
    | none => 1
    | some g => if g = 0 then 1 else g) * 1024

/-- Model of `checkLimits` (`serverHelpers.ts` lines 71–126): fetch the tenant with
counts, throw `NotFound` if absent, throw `AccountRestricted` if the status
is `Restricted` or `Suspended`, fall open (return the tenant) if the plan id
resolves to no Plan row, otherwise run the resource-specific quota check. -/
def checkLimits (store : Store) (tenantId : String) (resourceType : ResourceType)
    (incrementAmount : ℚ) : Except CheckError Tenant :=
  match findById store.tenants tenantId with
  | none => .error .tenantNotFound
  | some tenant =>
    if tenant.status = "Restricted" ∨ tenant.status = "Suspended" then
      .error .accountRestricted
    else
      match findPlanById store.plans tenant.plan with
      | none => .ok tenant
      | some plan =>
        let limits := plan.limits
        if resourceType = .storage ∧ tenant.storageUsed + incrementAmount > maxStorageMB limits then
          .error (.storageQuotaExceeded limits.maxStorageGB)
        else if resourceType = .users ∧ limits.maxUsers ≠ -1 ∧
            (tenant.countUsers : ℚ) + incrementAmount > limits.maxUsers then
          .error (.userLimitReached limits.maxUsers)
        else if resourceType = .clients ∧ limits.maxClients ≠ -1 ∧
            (tenant.countOwners : ℚ) + incrementAmount > limits.maxClients then
          .error (.clientLimitReached limits.maxClients)
        else .ok tenant

/-- The `Trial` entry of `DEFAULT_PLANS`. -/
def trialPlan : Plan :=
  { id := "Trial", name := "Trial", priceMonthly := 100, priceYearly := 1000,
    features := ["Full Access for Testing", "Limited Time", "Single User"],
    limits := { maxUsers := 1, maxClients := 10, maxStorageGB := some 0.5,
                modules := { pos := true, lab := true, ai := true, reports := true,
                             multiBranch := false } } }

/-- The `Starter` entry of `DEFAULT_PLANS`. -/
def starterPlan : Plan :=
  { id := "Starter", name := "Starter", priceMonthly := 7000, priceYearly := 70000,
    features := ["2 Users Max", "Max 50 Clients", "Basic Inventory & Sales",
                 "No Printing/Downloads", "No AI Features"],
    limits := { maxUsers := 2, maxClients := 50, maxStorageGB := some 2,
                modules := { pos := true, lab := false, ai := false, reports := false,
                             multiBranch := false, print := some false } } }

/-- The `Standard` entry of `DEFAULT_PLANS`. -/
def standardPlan : Plan :=
  { id := "Standard", name := "Standard", priceMonthly := 30000, priceYearly := 300000,
    features := ["7 Users Max", "Unlimited Clients", "Full Reports & Printing",
                 "Limited AI (200/mo)", "Lab Module"],
    limits := { maxUsers := 7, maxClients := -1, maxStorageGB := some 10,
                modules := { pos := true, lab := true, ai := true, reports := true,
                             multiBranch := false, print := some true, aiLimit := some 200 } } }

/-- The `Premium` entry of `DEFAULT_PLANS`. -/
def premiumPlan : Plan :=
  { id := "Premium", name := "Premium", priceMonthly := 70000, priceYearly := 700000,
    features := ["Unlimited Users", "Unlimited AI", "Multi-Branch Management",
                 "Staff Transfer", "Priority Support"],
    limits := { maxUsers := -1, maxClients := -1, maxStorageGB := some 100,
                modules := { pos := true, lab := true, ai := true, reports := true,
                             multiBranch := true, print := some true, aiLimit := some (-1) } } }

/-- Model of `DEFAULT_PLANS` (`serverHelpers.ts` lines 5–58). -/
def DEFAULT_PLANS : List Plan := [trialPlan, starterPlan, standardPlan, premiumPlan]

/-- Model of `prisma.plan.upsert({ where: { id: p.id }, update: p, create: p })`:
if a row with the id exists, overwrite all its fields; otherwise insert. -/
def upsertPlan (plans : List Plan) (p : Plan) : List Plan :=
  if plans.any (fun q => q.id == p.id) then
    plans.map (fun q => if q.id == p.id then p else q)
  else plans ++ [p]

/-- The plan-seeding loop of `start` (`server.ts` lines 84–90): upsert each
catalog entry in order. -/
def seedPlans (catalog : List Plan) (plans : List Plan) : List Plan :=
  catalog.foldl upsertPlan plans

/-- The underlying persistence call of `trackStorage`:
`prisma.tenant.update({ where: { id }, data: { storageUsed: { increment } } })`.
Prisma throws (`P2025`) when no row matches the unique `where`. -/
def updateTenantStorage (store : Store) (tenantId : String) (mbUsed : ℚ) :
    Except String Store :=
  if store.tenants.any (fun t => t.id == tenantId) then
    .ok { store with
          tenants := store.tenants.map (fun t =>
            if t.id = tenantId then { t with storageUsed := t.storageUsed + mbUsed } else t) }
  else .error "Record to update not found."

/-- Model of `trackStorage` (`serverHelpers.ts` lines 128–137): the update is wrapped
in try/catch; any persistence error is logged and swallowed, so the caller
always gets a store back. -/
def trackStorage (store : Store) (tenantId : String) (mbUsed : ℚ) : Store :=
  match updateTenantStorage store tenantId mbUsed with
  | .ok s => s
  | .error _ => store

/-- The process environment as seen by `verifyPayment`:
`process.env.NODE_ENV` and `process.env.FLUTTERWAVE_SECRET_KEY`, each
possibly unset. -/
structure PaymentEnv where
  nodeEnv : Option String
  flutterwaveSecretKey : Option String
deriving DecidableEq, Repr

/-- The JSON body of a gateway verification response: the envelope `status`
field, and the `data.status` field.  `dataField = none` models `data.data`
being absent/undefined (so `data.data.status` would throw);
`dataField = some s` models `data.data` present with `status` field `s`
(itself absent when `s = none`). -/
structure GatewayJson where
  status : Option String
  dataField : Option (Option String)
deriving DecidableEq, Repr

/-- The outcome of the `fetch` to the gateway: a network-level exception, or
an HTTP response with its `ok` flag and body (`none` = `response.json()`
throws a parse error). -/
inductive GatewayResponse where
  | netError
  | response (ok : Bool) (body : Option GatewayJson)
deriving DecidableEq, Repr

/-- Evaluation of `data.status === 'success' && data.data.status === 'successful'`.
When `data.status` is `'success'` but `data.data` is absent, the property
access throws; the surrounding catch turns that into `false`, which is the
value returned here. -/
def gatewayBodyIndicatesSuccess (j : GatewayJson) : Bool :=
  if j.status = some "success" then
    match j.dataField with
    | none => false
    | some txStatus => txStatus = some "successful"
  else false

/-- The non-mock tail of `verifyPayment`: fail closed on a missing secret
key, then interpret the gateway interaction — `false` on a network
exception, a non-OK response, or a parse failure, and otherwise the status
test on the body. -/
def gatewayVerify (env : PaymentEnv) (gw : GatewayResponse) : Bool :=
  match env.flutterwaveSecretKey with
  | none => false
  | some _ =>
    match gw with
    | .netError => false
    | .response ok body =>
      if ok then
        match body with
        | none => false
        | some j => gatewayBodyIndicatesSuccess j
      else false

/-- JavaScript `s.startsWith(p)`: `p`'s character sequence is an initial
segment of `s`'s. -/
def jsStartsWith (s p : String) : Bool :=
  p.data.isPrefixOf s.data

/-- Model of `verifyPayment` (`serverHelpers.ts` lines 141–172).  Outside production,
references starting with `mock-` and the exact reference `TRIAL` return
`true` before any network interaction; otherwise the gateway path runs.
Every throw site sits inside the try/catch returning `false`, so the
function is total into `Bool`. -/
def verifyPayment (env : PaymentEnv) (gw : GatewayResponse)
    (transactionId : String) : Bool :=
  if env.nodeEnv ≠ some "production" ∧
      (jsStartsWith transactionId "mock-" = true ∨ transactionId = "TRIAL") then
    true
  else gatewayVerify env gw

/-- The `POST /owners` handler (`routes.ts` lines 184–189): read the tenant
id from the authenticated user and create the owner row directly. -/
def postOwnersHandler (store : Store) (tenantId : String) (newId : String) :
    Store × Owner :=
  let owner : Owner := { id := newId, tenantId := tenantId }
  ({ store with owners := store.owners ++ [owner] }, owner)

/-- The `POST /users` handler (`server.ts` lines 331–347): create the user
row directly; the only guarded failure is the unique-email violation, which
the catch turns into a 400 "Email exists" reply. -/
def postUsersHandler (store : Store) (tenantId newId name email : String) :
    Store × Except String String :=
  if store.users.any (fun u => u.email == email) then
    (store, .error "Email exists")
  else
    ({ store with users := store.users ++ [⟨newId, tenantId, name, email⟩] },
     .ok newId)

instance {ε α : Type} [DecidableEq ε] [DecidableEq α] : DecidableEq (Except ε α) :=
  fun x y =>
    match x, y with
    | .ok u, .ok v =>
      if h : u = v then .isTrue (by rw [h]) else .isFalse (fun c => by cases c; exact h rfl)
    | .error u, .error v =>
      if h : u = v then .isTrue (by rw [h]) else .isFalse (fun c => by cases c; exact h rfl)
    | .ok _, .error _ => .isFalse (fun c => by cases c)
    | .error _, .ok _ => .isFalse (fun c => by cases c)

/-- C1: for every tenant whose status is `Restricted` or `Suspended`,
`checkLimits` fails with the AccountRestricted error for every resource
type, every increment, and every plan table (including one in which the
tenant's plan is missing): the status gate precedes plan resolution and
all quota arithmetic. -/
theorem checkLimits_restricted_gate (store : Store) (tid : String)
    (rt : ResourceType) (inc : ℚ) (t : Tenant)
    (hfind : findById store.tenants tid = some t)
    (hstatus : t.status = "Restricted" ∨ t.status = "Suspended") :
    checkLimits store tid rt inc = .error .accountRestricted := by
  simp only [checkLimits, hfind, if_pos hstatus]

/-- Witness for C1: a concrete `Restricted` tenant on the Starter plan is
rejected on a clients check. -/
theorem checkLimits_restricted_gate_witness :
    checkLimits
      { tenants := [{ id := "t1", name := "Clinic", plan := "Starter",
                      status := "Restricted", storageUsed := 0, countUsers := 0,
                      countPets := 0, countOwners := 0 }],
        plans := DEFAULT_PLANS, users := [], owners := [] }
      "t1" .clients 5 = .error .accountRestricted :=
  checkLimits_restricted_gate _ "t1" .clients 5
    { id := "t1", name := "Clinic", plan := "Starter", status := "Restricted",
      storageUsed := 0, countUsers := 0, countPets := 0, countOwners := 0 }
    (by with_unfolding_all rfl) (Or.inl rfl)

/-- C4: an existing, non-restricted tenant whose plan id resolves to no
Plan row passes `checkLimits` for every resource type and every
increment (fail-open fallback). -/
theorem checkLimits_missing_plan_fail_open (store : Store) (tid : String)
    (rt : ResourceType) (inc : ℚ) (t : Tenant)
    (hfind : findById store.tenants tid = some t)
    (hok : ¬ (t.status = "Restricted" ∨ t.status = "Suspended"))
    (hplan : findPlanById store.plans t.plan = none) :
    checkLimits store tid rt inc = .ok t := by
  simp only [checkLimits, hfind, if_neg hok, hplan]

/-- Witness for C4: a tenant on the unseeded plan id `Enterprise` passes a
huge storage increment. -/
theorem checkLimits_missing_plan_fail_open_witness :
    checkLimits
      { tenants := [{ id := "t1", name := "Clinic", plan := "Enterprise",
                      status := "Active", storageUsed := 999999, countUsers := 50,
                      countPets := 0, countOwners := 50 }],
        plans := DEFAULT_PLANS, users := [], owners := [] }
      "t1" .storage 999999
      = .ok { id := "t1", name := "Clinic", plan := "Enterprise",
              status := "Active", storageUsed := 999999, countUsers := 50,
              countPets := 0, countOwners := 50 } :=
  checkLimits_missing_plan_fail_open _ "t1" .storage 999999 _
    (by with_unfolding_all rfl)
    (of_decide_eq_false (by with_unfolding_all rfl))
    (by with_unfolding_all rfl)

/-- Shared unfolding: for an existing, unrestricted tenant with a resolved
plan, `checkLimits` is the three-way quota test. -/
theorem checkLimits_with_plan (store : Store) (tid : String) (rt : ResourceType)
    (inc : ℚ) (t : Tenant) (p : Plan)
    (hfind : findById store.tenants tid = some t)
    (hok : ¬ (t.status = "Restricted" ∨ t.status = "Suspended"))
    (hplan : findPlanById store.plans t.plan = some p) :
    checkLimits store tid rt inc =
      if rt = .storage ∧ t.storageUsed + inc > maxStorageMB p.limits then
        .error (.storageQuotaExceeded p.limits.maxStorageGB)
      else if rt = .users ∧ p.limits.maxUsers ≠ -1 ∧
          (t.countUsers : ℚ) + inc > p.limits.maxUsers then
        .error (.userLimitReached p.limits.maxUsers)
      else if rt = .clients ∧ p.limits.maxClients ≠ -1 ∧
          (t.countOwners : ℚ) + inc > p.limits.maxClients then
        .error (.clientLimitReached p.limits.maxClients)
      else .ok t := by
  simp only [checkLimits, hfind, if_neg hok, hplan]

/-- C2: with a resolved plan, the users check is skipped when
`maxUsers = -1`, and otherwise fails with the user-limit error exactly when
`currentUserCount + incrementAmount > maxUsers`. -/
theorem checkLimits_users_quota (store : Store) (tid : String) (inc : ℚ)
    (t : Tenant) (p : Plan)
    (hfind : findById store.tenants tid = some t)
    (hok : ¬ (t.status = "Restricted" ∨ t.status = "Suspended"))
    (hplan : findPlanById store.plans t.plan = some p) :
    (p.limits.maxUsers = -1 → checkLimits store tid .users inc = .ok t) ∧
    (p.limits.maxUsers ≠ -1 → (t.countUsers : ℚ) + inc > p.limits.maxUsers →
      checkLimits store tid .users inc = .error (.userLimitReached p.limits.maxUsers)) ∧
    (p.limits.maxUsers ≠ -1 → (t.countUsers : ℚ) + inc ≤ p.limits.maxUsers →
      checkLimits store tid .users inc = .ok t) := by
  rw [checkLimits_with_plan store tid .users inc t p hfind hok hplan]
  refine ⟨fun hu => ?_, fun hu hgt => ?_, fun hu hle => ?_⟩
  · rw [if_neg (fun h => by cases h.1), if_neg (fun h => absurd hu h.2.1),
      if_neg (fun h => by cases h.1)]
  · rw [if_neg (fun h => by cases h.1), if_pos ⟨rfl, hu, hgt⟩]
  · rw [if_neg (fun h => by cases h.1), if_neg (fun h => absurd h.2.2 (not_lt.mpr hle)),
      if_neg (fun h => by cases h.1)]

/-- Witness for C2: the Starter plan has `maxUsers = 2`; a tenant at 2 users
is refused one more user but passes a zero-increment check. -/
theorem checkLimits_users_quota_witness :
    checkLimits
      { tenants := [{ id := "t1", name := "Clinic", plan := "Starter",
                      status := "Active", storageUsed := 0, countUsers := 2,
                      countPets := 0, countOwners := 0 }],
        plans := [starterPlan], users := [], owners := [] }
      "t1" .users 1 = .error (.userLimitReached 2) ∧
    checkLimits
      { tenants := [{ id := "t1", name := "Clinic", plan := "Starter",
                      status := "Active", storageUsed := 0, countUsers := 2,
                      countPets := 0, countOwners := 0 }],
        plans := [starterPlan], users := [], owners := [] }
      "t1" .users 0 = .ok { id := "t1", name := "Clinic", plan := "Starter",
                            status := "Active", storageUsed := 0, countUsers := 2,
                            countPets := 0, countOwners := 0 } :=
  ⟨(checkLimits_users_quota _ "t1" 1 _ starterPlan
      (by with_unfolding_all rfl)
      (of_decide_eq_false (by with_unfolding_all rfl))
      (by with_unfolding_all rfl)).2.1
    (of_decide_eq_true (by with_unfolding_all rfl))
    (of_decide_eq_true (by with_unfolding_all rfl)),
   (checkLimits_users_quota _ "t1" 0 _ starterPlan
      (by with_unfolding_all rfl)
      (of_decide_eq_false (by with_unfolding_all rfl))
      (by with_unfolding_all rfl)).2.2
    (of_decide_eq_true (by with_unfolding_all rfl))
    (of_decide_eq_true (by with_unfolding_all rfl))⟩

/-- The effective storage limit for a present, non-zero `maxStorageGB`. -/
theorem maxStorageMB_of_truthy (l : Limits) (g : ℚ) (hg : l.maxStorageGB = some g)
    (hgz : g ≠ 0) : maxStorageMB l = g * 1024 := by
  rw [maxStorageMB, hg]
  simp only [if_neg hgz]

/-- The effective storage limit when `maxStorageGB` is absent or `0`. -/
theorem maxStorageMB_of_falsy (l : Limits)
    (hg : l.maxStorageGB = none ∨ l.maxStorageGB = some 0) :
    maxStorageMB l = 1024 := by
  rcases hg with hg | hg <;> rw [maxStorageMB, hg] <;> simp

/-- C3: with a resolved plan whose `maxStorageGB` is a non-zero `g`, the
storage limit is `g × 1024` MB; the check fails exactly when
`storageUsed + incrementAmount` strictly exceeds it, and the error carries
the configured `maxStorageGB`. -/
theorem checkLimits_storage_quota (store : Store) (tid : String) (inc : ℚ)
    (t : Tenant) (p : Plan) (g : ℚ)
    (hfind : findById store.tenants tid = some t)
    (hok : ¬ (t.status = "Restricted" ∨ t.status = "Suspended"))
    (hplan : findPlanById store.plans t.plan = some p)
    (hg : p.limits.maxStorageGB = some g) (hgz : g ≠ 0) :
    (t.storageUsed + inc > g * 1024 →
      checkLimits store tid .storage inc = .error (.storageQuotaExceeded (some g))) ∧
    (t.storageUsed + inc ≤ g * 1024 →
      checkLimits store tid .storage inc = .ok t) := by
  rw [checkLimits_with_plan store tid .storage inc t p hfind hok hplan,
    maxStorageMB_of_truthy p.limits g hg hgz]
  refine ⟨fun hgt => ?_, fun hle => ?_⟩
  · rw [if_pos ⟨rfl, hgt⟩, hg]
  · rw [if_neg (fun h => absurd h.2 (not_lt.mpr hle)),
      if_neg (fun h => by cases h.1), if_neg (fun h => by cases h.1)]

/-- Witness for C3: Starter has `maxStorageGB = 2`; at 2047 MB used, an
increment of 1 passes (2048 ≤ 2048) and an increment of 2 fails with the
error carrying the configured limit 2. -/
theorem checkLimits_storage_quota_witness :
    checkLimits
      { tenants := [{ id := "t1", name := "Clinic", plan := "Starter",
                      status := "Active", storageUsed := 2047, countUsers := 0,
                      countPets := 0, countOwners := 0 }],
        plans := [starterPlan], users := [], owners := [] }
      "t1" .storage 1 = .ok { id := "t1", name := "Clinic", plan := "Starter",
                              status := "Active", storageUsed := 2047, countUsers := 0,
                              countPets := 0, countOwners := 0 } ∧
    checkLimits
      { tenants := [{ id := "t1", name := "Clinic", plan := "Starter",
                      status := "Active", storageUsed := 2047, countUsers := 0,
                      countPets := 0, countOwners := 0 }],
        plans := [starterPlan], users := [], owners := [] }
      "t1" .storage 2 = .error (.storageQuotaExceeded (some 2)) :=
  ⟨(checkLimits_storage_quota _ "t1" 1 _ starterPlan 2
      (by with_unfolding_all rfl)
      (of_decide_eq_false (by with_unfolding_all rfl))
      (by with_unfolding_all rfl) rfl
      (of_decide_eq_false (by with_unfolding_all rfl))).2
    (of_decide_eq_true (by with_unfolding_all rfl)),
   (checkLimits_storage_quota _ "t1" 2 _ starterPlan 2
      (by with_unfolding_all rfl)
      (of_decide_eq_false (by with_unfolding_all rfl))
      (by with_unfolding_all rfl) rfl
      (of_decide_eq_false (by with_unfolding_all rfl))).1
    (of_decide_eq_true (by with_unfolding_all rfl))⟩

/-- C10: with a resolved plan whose `maxStorageGB` is absent or `0` (JS
falsy), the effective storage limit is `1024` MB rather than zero: the check
passes exactly when `storageUsed + incrementAmount ≤ 1024`. -/
theorem checkLimits_storage_falsy_default (store : Store) (tid : String)
    (inc : ℚ) (t : Tenant) (p : Plan)
    (hfind : findById store.tenants tid = some t)
    (hok : ¬ (t.status = "Restricted" ∨ t.status = "Suspended"))
    (hplan : findPlanById store.plans t.plan = some p)
    (hg : p.limits.maxStorageGB = none ∨ p.limits.maxStorageGB = some 0) :
    (t.storageUsed + inc ≤ 1024 → checkLimits store tid .storage inc = .ok t) ∧
    (t.storageUsed + inc > 1024 →
      checkLimits store tid .storage inc
        = .error (.storageQuotaExceeded p.limits.maxStorageGB)) := by
  rw [checkLimits_with_plan store tid .storage inc t p hfind hok hplan,
    maxStorageMB_of_falsy p.limits hg]
  refine ⟨fun hle => ?_, fun hgt => ?_⟩
  · rw [if_neg (fun h => absurd h.2 (not_lt.mpr hle)),
      if_neg (fun h => by cases h.1), if_neg (fun h => by cases h.1)]
  · rw [if_pos ⟨rfl, hgt⟩]

/-- Witness for C10: a plan with `maxStorageGB = 0` still lets a tenant at
1000 MB add 24 MB (1024 ≤ 1024), and refuses 25 MB with the raw configured
value `some 0` in the error. -/
theorem checkLimits_storage_falsy_default_witness :
    checkLimits
      { tenants := [{ id := "t1", name := "Clinic", plan := "Zero",
                      status := "Active", storageUsed := 1000, countUsers := 0,
                      countPets := 0, countOwners := 0 }],
        plans := [{ id := "Zero", name := "Zero", priceMonthly := 0, priceYearly := 0,
                    features := [],
                    limits := { maxUsers := 1, maxClients := 1, maxStorageGB := some 0,
                                modules := { pos := true, lab := true, ai := true,
                                             reports := true, multiBranch := false } } }],
        users := [], owners := [] }
      "t1" .storage 24
      = .ok { id := "t1", name := "Clinic", plan := "Zero",
              status := "Active", storageUsed := 1000, countUsers := 0,
              countPets := 0, countOwners := 0 } ∧
    checkLimits
      { tenants := [{ id := "t1", name := "Clinic", plan := "Zero",
                      status := "Active", storageUsed := 1000, countUsers := 0,
                      countPets := 0, countOwners := 0 }],
        plans := [{ id := "Zero", name := "Zero", priceMonthly := 0, priceYearly := 0,
                    features := [],
                    limits := { maxUsers := 1, maxClients := 1, maxStorageGB := some 0,
                                modules := { pos := true, lab := true, ai := true,
                                             reports := true, multiBranch := false } } }],
        users := [], owners := [] }
      "t1" .storage 25 = .error (.storageQuotaExceeded (some 0)) :=
  ⟨(checkLimits_storage_falsy_default _ "t1" 24 _ _
      (by with_unfolding_all rfl)
      (of_decide_eq_false (by with_unfolding_all rfl))
      (by with_unfolding_all rfl) (Or.inr rfl)).1
    (of_decide_eq_true (by with_unfolding_all rfl)),
   (checkLimits_storage_falsy_default _ "t1" 25 _ _
      (by with_unfolding_all rfl)
      (of_decide_eq_false (by with_unfolding_all rfl))
      (by with_unfolding_all rfl) (Or.inr rfl)).2
    (of_decide_eq_true (by with_unfolding_all rfl))⟩

/-- C8: `trackStorage` is total — every persistence error is caught, so the
caller always receives a store — and its whole effect is to add exactly
`mbUsed` (possibly negative) to the matching tenant's `storageUsed`,
leaving every other field of that tenant, every other tenant, and every
other table unchanged; when the update fails (no matching tenant) the store
is returned untouched. -/
theorem trackStorage_total_spec (store : Store) (tid : String) (mb : ℚ) :
    (trackStorage store tid mb).tenants
      = store.tenants.map (fun t =>
          if t.id = tid then { t with storageUsed := t.storageUsed + mb } else t) ∧
    (trackStorage store tid mb).plans = store.plans ∧
    (trackStorage store tid mb).users = store.users ∧
    (trackStorage store tid mb).owners = store.owners := by
  unfold trackStorage updateTenantStorage
  by_cases h : store.tenants.any (fun t => t.id == tid) = true
  · rw [if_pos h]
    exact ⟨rfl, rfl, rfl, rfl⟩
  · rw [if_neg h]
    refine ⟨?_, rfl, rfl, rfl⟩
    have hall : ∀ t ∈ store.tenants, t.id ≠ tid := by
      intro t ht
      have := List.any_eq_false.mp (Bool.not_eq_true _ ▸ h) t ht
      simpa using this
    calc store.tenants = store.tenants.map id := (List.map_id _).symm
      _ = store.tenants.map (fun t =>
            if t.id = tid then { t with storageUsed := t.storageUsed + mb } else t) := by
          apply List.map_congr_left
          intro t ht
          simp [if_neg (hall t ht)]

/-- C7: outside production, every reference with the `mock-` prefix and the
exact reference `TRIAL` verify as `true` for every gateway behaviour (no
network call can influence the result); in production the same references
take the real gateway path. -/
theorem verifyPayment_mock_bypass (env : PaymentEnv) (gw : GatewayResponse) :
    (env.nodeEnv ≠ some "production" →
      (∀ s : String, verifyPayment env gw ("mock-" ++ s) = true) ∧
        verifyPayment env gw "TRIAL" = true) ∧
    (env.nodeEnv = some "production" →
      (∀ s : String, verifyPayment env gw ("mock-" ++ s) = gatewayVerify env gw) ∧
        verifyPayment env gw "TRIAL" = gatewayVerify env gw) := by
  have hpre : ∀ s : String, jsStartsWith ("mock-" ++ s) "mock-" = true := by
    intro s
    rw [jsStartsWith, List.isPrefixOf_iff_prefix, String.data_append]
    exact List.prefix_append _ _
  constructor
  · intro hdev
    constructor
    · intro s
      rw [verifyPayment, if_pos ⟨hdev, Or.inl (hpre s)⟩]
    · rw [verifyPayment, if_pos ⟨hdev, Or.inr rfl⟩]
  · intro hprod
    constructor
    · intro s
      rw [verifyPayment, if_neg (fun h => h.1 hprod)]
    · rw [verifyPayment, if_neg (fun h => h.1 hprod)]

/-- Witness for C7: with no secret key configured, a mock reference passes
in development yet the same call in production falls through to the
gateway path (which here fails closed). -/
theorem verifyPayment_mock_bypass_witness :
    verifyPayment { nodeEnv := some "development", flutterwaveSecretKey := none }
      .netError ("mock-" ++ "abc") = true ∧
    verifyPayment { nodeEnv := some "production", flutterwaveSecretKey := none }
      .netError ("mock-" ++ "abc")
      = gatewayVerify { nodeEnv := some "production", flutterwaveSecretKey := none }
          .netError ∧
    verifyPayment { nodeEnv := some "development", flutterwaveSecretKey := none }
      .netError "TRIAL" = true :=
  ⟨((verifyPayment_mock_bypass _ .netError).1
      (of_decide_eq_false (by with_unfolding_all rfl))).1 "abc",
   ((verifyPayment_mock_bypass _ .netError).2 rfl).1 "abc",
   ((verifyPayment_mock_bypass _ .netError).1
      (of_decide_eq_false (by with_unfolding_all rfl))).2⟩

/-- C6: whenever the development special case does not apply, `verifyPayment`
returns `true` exactly when a secret key is configured and the gateway
returned an OK response whose parsed body has envelope status `success` and
transaction status `successful`; every other outcome — missing credential,
network exception, non-OK response, parse failure, or mismatched status —
yields `false`.  (`verifyPayment` is a total `Bool`-valued function: every
throw site of the source sits inside its try/catch.) -/
theorem verifyPayment_gateway_characterization (env : PaymentEnv)
    (gw : GatewayResponse) (tid : String)
    (h : ¬ (env.nodeEnv ≠ some "production" ∧
      (jsStartsWith tid "mock-" = true ∨ tid = "TRIAL"))) :
    verifyPayment env gw tid = true ↔
      env.flutterwaveSecretKey ≠ none ∧
        ∃ j : GatewayJson, gw = .response true (some j) ∧
          j.status = some "success" ∧ j.dataField = some (some "successful") := by
  obtain ⟨ne, key⟩ := env
  rw [verifyPayment, if_neg h]
  cases key with
  | none => simp [gatewayVerify]
  | some k =>
    cases gw with
    | netError => simp [gatewayVerify]
    | response ok body =>
      cases ok with
      | false => simp [gatewayVerify]
      | true =>
        cases body with
        | none => simp [gatewayVerify]
        | some j =>
          by_cases hs : j.status = some "success"
          · cases hd : j.dataField with
            | none => simp [gatewayVerify, gatewayBodyIndicatesSuccess, hs, hd]
            | some tx => simp [gatewayVerify, gatewayBodyIndicatesSuccess, hs, hd]
          · simp [gatewayVerify, gatewayBodyIndicatesSuccess, hs]

/-- Witness for C6: in production with a configured key, an OK response with
both success statuses verifies as `true`. -/
theorem verifyPayment_gateway_characterization_witness :
    verifyPayment { nodeEnv := some "production", flutterwaveSecretKey := some "sk" }
      (.response true (some { status := some "success",
                              dataField := some (some "successful") }))
      "tx-1" = true :=
  (verifyPayment_gateway_characterization _ _ "tx-1"
      (fun c => c.1 rfl)).mpr
    ⟨(fun c => Option.noConfusion c),
     { status := some "success", dataField := some (some "successful") },
     rfl, rfl, rfl⟩

/-- C5 counterexample: on a store whose only tenant is `Restricted`, the
Quota Checker refuses both a client and a user increment, yet the
owner-creation and user-creation handlers both commit their new entity —
neither route consults `checkLimits` before its create call. -/
theorem createRoutes_skip_quota_check_counterexample :
    checkLimits
      { tenants := [{ id := "t1", name := "Clinic", plan := "Starter",
                      status := "Restricted", storageUsed := 0, countUsers := 0,
                      countPets := 0, countOwners := 0 }],
        plans := [starterPlan], users := [], owners := [] }
      "t1" .clients 1 = .error .accountRestricted ∧
    checkLimits
      { tenants := [{ id := "t1", name := "Clinic", plan := "Starter",
                      status := "Restricted", storageUsed := 0, countUsers := 0,
                      countPets := 0, countOwners := 0 }],
        plans := [starterPlan], users := [], owners := [] }
      "t1" .users 1 = .error .accountRestricted ∧
    ((postOwnersHandler
      { tenants := [{ id := "t1", name := "Clinic", plan := "Starter",
                      status := "Restricted", storageUsed := 0, countUsers := 0,
                      countPets := 0, countOwners := 0 }],
        plans := [starterPlan], users := [], owners := [] }
      "t1" "CL-1").1).owners = [{ id := "CL-1", tenantId := "t1" }] ∧
    ((postUsersHandler
      { tenants := [{ id := "t1", name := "Clinic", plan := "Starter",
                      status := "Restricted", storageUsed := 0, countUsers := 0,
                      countPets := 0, countOwners := 0 }],
        plans := [starterPlan], users := [], owners := [] }
      "t1" "USR-1" "Ann" "ann@clinic.test").1).users
      = [{ id := "USR-1", tenantId := "t1", name := "Ann",
           email := "ann@clinic.test" }] :=
  ⟨by with_unfolding_all rfl, by with_unfolding_all rfl,
   by with_unfolding_all rfl, by with_unfolding_all rfl⟩

/-- C5 (amended): the owner-creation and user-creation routes never invoke
`checkLimits`; owner creation appends the new owner unconditionally, and
user creation appends the new user whenever the email is not already taken
(replying "Email exists" otherwise), regardless of tenant status, plan, or
quota state. -/
theorem createRoutes_unconditional (store : Store) (tid oid uid nm em : String) :
    ((postOwnersHandler store tid oid).1).owners
      = store.owners ++ [{ id := oid, tenantId := tid }] ∧
    ((postOwnersHandler store tid oid).1).tenants = store.tenants ∧
    (store.users.any (fun u => u.email == em) = false →
      ((postUsersHandler store tid uid nm em).1).users
        = store.users ++ [{ id := uid, tenantId := tid, name := nm, email := em }]) ∧
    (store.users.any (fun u => u.email == em) = true →
      postUsersHandler store tid uid nm em = (store, .error "Email exists")) := by
  refine ⟨rfl, rfl, fun hfree => ?_, fun htaken => ?_⟩
  · rw [postUsersHandler, if_neg (by rw [hfree]; exact Bool.false_ne_true)]
  · rw [postUsersHandler, if_pos htaken]

/-- Witness for C5 (amended): on an empty store both creates commit, and on
a store already holding the email the user create is refused. -/
theorem createRoutes_unconditional_witness :
    ((postOwnersHandler { tenants := [], plans := [], users := [], owners := [] }
      "t1" "CL-1").1).owners = [{ id := "CL-1", tenantId := "t1" }] ∧
    ((postUsersHandler { tenants := [], plans := [], users := [], owners := [] }
      "t1" "USR-1" "Ann" "ann@clinic.test").1).users
      = [{ id := "USR-1", tenantId := "t1", name := "Ann",
           email := "ann@clinic.test" }] ∧
    postUsersHandler
      { tenants := [], plans := [],
        users := [{ id := "USR-0", tenantId := "t1", name := "Bo",
                    email := "ann@clinic.test" }], owners := [] }
      "t1" "USR-1" "Ann" "ann@clinic.test"
      = ({ tenants := [], plans := [],
           users := [{ id := "USR-0", tenantId := "t1", name := "Bo",
                       email := "ann@clinic.test" }], owners := [] },
         .error "Email exists") :=
  ⟨(createRoutes_unconditional
      { tenants := [], plans := [], users := [], owners := [] }
      "t1" "CL-1" "USR-1" "Ann" "ann@clinic.test").1,
   (createRoutes_unconditional
      { tenants := [], plans := [], users := [], owners := [] }
      "t1" "CL-1" "USR-1" "Ann" "ann@clinic.test").2.2.1
     (by with_unfolding_all rfl),
   (createRoutes_unconditional
      { tenants := [], plans := [],
        users := [{ id := "USR-0", tenantId := "t1", name := "Bo",
                    email := "ann@clinic.test" }], owners := [] }
      "t1" "CL-1" "USR-1" "Ann" "ann@clinic.test").2.2.2
     (by with_unfolding_all rfl)⟩

/-- The id column of a plan table. -/
def idsOf (l : List Plan) : List String := l.map Plan.id

/-- After an upsert, a row with the upserted id exists. -/
theorem upsertPlan_ids_any (plans : List Plan) (p : Plan) :
    (upsertPlan plans p).any (fun q => q.id == p.id) = true := by
  rw [upsertPlan]
  by_cases h : plans.any (fun q => q.id == p.id) = true
  · rw [if_pos h]
    obtain ⟨r, hr, hrid⟩ := List.any_eq_true.mp h
    refine List.any_eq_true.mpr ⟨p, ?_, by simp⟩
    refine List.mem_map.mpr ⟨r, hr, ?_⟩
    rw [if_pos hrid]
  · rw [if_neg h]
    refine List.any_eq_true.mpr ⟨p, List.mem_append.mpr (Or.inr (by simp)), by simp⟩

/-- After an upsert, every row carrying the upserted id is the upserted
plan. -/
theorem upsertPlan_val (plans : List Plan) (p : Plan) :
    ∀ q ∈ upsertPlan plans p, q.id = p.id → q = p := by
  rw [upsertPlan]
  by_cases h : plans.any (fun q => q.id == p.id) = true
  · rw [if_pos h]
    intro q hq hqid
    obtain ⟨r, hr, hfr⟩ := List.mem_map.mp hq
    by_cases hc : (r.id == p.id) = true
    · rw [if_pos hc] at hfr
      exact hfr.symm
    · rw [if_neg hc] at hfr
      exact absurd (hfr ▸ hqid) (beq_eq_false_iff_ne.mp (Bool.not_eq_true _ ▸ hc))
  · rw [if_neg h]
    intro q hq hqid
    rcases List.mem_append.mp hq with hq | hq
    · have := List.any_eq_false.mp (Bool.not_eq_true _ ▸ h) q hq
      exact absurd hqid (by simpa using this)
    · simpa using hq

/-- Upserting `p` keeps every id that already had a row. -/
theorem upsertPlan_keeps_any (plans : List Plan) (p : Plan) (x : String)
    (hx : plans.any (fun q => q.id == x) = true) :
    (upsertPlan plans p).any (fun q => q.id == x) = true := by
  obtain ⟨r, hr, hrx⟩ := List.any_eq_true.mp hx
  rw [upsertPlan]
  by_cases h : plans.any (fun q => q.id == p.id) = true
  · rw [if_pos h]
    refine List.any_eq_true.mpr ⟨if (r.id == p.id) = true then p else r,
      List.mem_map.mpr ⟨r, hr, rfl⟩, ?_⟩
    by_cases hc : (r.id == p.id) = true
    · rw [if_pos hc]
      have : p.id = r.id := (beq_iff_eq.mp hc).symm
      simpa [this] using hrx
    · rw [if_neg hc]
      exact hrx
  · rw [if_neg h]
    exact List.any_eq_true.mpr ⟨r, List.mem_append.mpr (Or.inl hr), hrx⟩

/-- Upserting a plan with a different id keeps the property that all rows
with id `x` equal `r`. -/
theorem upsertPlan_keeps_val (plans : List Plan) (p : Plan) (x : String)
    (r : Plan) (hne : p.id ≠ x)
    (hval : ∀ q ∈ plans, q.id = x → q = r) :
    ∀ q ∈ upsertPlan plans p, q.id = x → q = r := by
  rw [upsertPlan]
  by_cases h : plans.any (fun q => q.id == p.id) = true
  · rw [if_pos h]
    intro q hq hqx
    obtain ⟨s, hs, hfs⟩ := List.mem_map.mp hq
    by_cases hc : (s.id == p.id) = true
    · rw [if_pos hc] at hfs
      exact absurd (hfs ▸ hqx) hne
    · rw [if_neg hc] at hfs
      subst hfs
      exact hval s hs hqx
  · rw [if_neg h]
    intro q hq hqx
    rcases List.mem_append.mp hq with hq | hq
    · exact hval q hq hqx
    · have : q = p := by simpa using hq
      exact absurd (this ▸ hqx) hne

/-- An upsert leaves the id column duplicate-free. -/
theorem upsertPlan_ids_nodup (plans : List Plan) (p : Plan)
    (h : (idsOf plans).Nodup) : (idsOf (upsertPlan plans p)).Nodup := by
  rw [upsertPlan]
  by_cases hany : plans.any (fun q => q.id == p.id) = true
  · rw [if_pos hany]
    have : idsOf (plans.map (fun q => if (q.id == p.id) = true then p else q))
        = idsOf plans := by
      rw [idsOf, List.map_map, idsOf]
      apply List.map_congr_left
      intro q hq
      by_cases hc : (q.id == p.id) = true
      · simp only [Function.comp_apply, if_pos hc]
        exact (beq_iff_eq.mp hc).symm
      · simp only [Function.comp_apply, if_neg hc]
    rw [this]
    exact h
  · rw [if_neg hany]
    have hnotin : p.id ∉ idsOf plans := by
      intro hmem
      obtain ⟨r, hr, hrid⟩ := List.mem_map.mp hmem
      have := List.any_eq_false.mp (Bool.not_eq_true _ ▸ hany) r hr
      exact this (by simp [hrid])
    rw [idsOf, List.map_append]
    simp only [List.map_cons, List.map_nil]
    rw [List.nodup_append]
    refine ⟨h, List.nodup_singleton _, ?_⟩
    intro a ha hmem
    have haid : a = p.id := by simpa using hmem
    exact hnotin (haid ▸ ha)

/-- Seeding unfolds one catalog entry at a time. -/
theorem seedPlans_cons (c : List Plan) (plans : List Plan) (p : Plan) :
    seedPlans (p :: c) plans = seedPlans c (upsertPlan plans p) := rfl

/-- Seeding keeps every id that already had a row. -/
theorem seedPlans_keeps_any (c : List Plan) (plans : List Plan) (x : String)
    (hx : plans.any (fun q => q.id == x) = true) :
    (seedPlans c plans).any (fun q => q.id == x) = true := by
  induction c generalizing plans with
  | nil => exact hx
  | cons p rest ih => exact ih (upsertPlan plans p) (upsertPlan_keeps_any plans p x hx)

/-- Seeding a catalog that never touches id `x` keeps the property that all
rows with id `x` equal `r`. -/
theorem seedPlans_keeps_val (c : List Plan) (plans : List Plan) (x : String)
    (r : Plan) (hxc : x ∉ idsOf c)
    (hval : ∀ q ∈ plans, q.id = x → q = r) :
    ∀ q ∈ seedPlans c plans, q.id = x → q = r := by
  induction c generalizing plans with
  | nil => exact hval
  | cons p rest ih =>
    have hne : p.id ≠ x := by
      intro hc
      exact hxc (by simp [idsOf, hc.symm])
    have hxrest : x ∉ idsOf rest := fun hc => hxc (by simp [idsOf] at hc ⊢; exact Or.inr hc)
    exact ih (upsertPlan plans p) hxrest (upsertPlan_keeps_val plans p x r hne hval)

/-- Seeding leaves the id column duplicate-free. -/
theorem seedPlans_ids_nodup (c : List Plan) (plans : List Plan)
    (h : (idsOf plans).Nodup) : (idsOf (seedPlans c plans)).Nodup := by
  induction c generalizing plans with
  | nil => exact h
  | cons p rest ih => exact ih (upsertPlan plans p) (upsertPlan_ids_nodup plans p h)

/-- After seeding a duplicate-free catalog, every catalog entry has a row
and every row carrying its id equals it. -/
theorem seedPlans_establishes (c : List Plan) (hc : (idsOf c).Nodup)
    (plans : List Plan) :
    ∀ p ∈ c, ((seedPlans c plans).any (fun q => q.id == p.id) = true) ∧
      ∀ q ∈ seedPlans c plans, q.id = p.id → q = p := by
  induction c generalizing plans with
  | nil => intro p hp; cases hp
  | cons p₀ rest ih =>
    have hc' : p₀.id ∉ idsOf rest ∧ (idsOf rest).Nodup := by
      rw [idsOf, List.map_cons] at hc
      exact List.nodup_cons.mp hc
    intro p hp
    rcases List.mem_cons.mp hp with hp | hp
    · subst hp
      rw [seedPlans_cons]
      refine ⟨seedPlans_keeps_any rest _ p.id (upsertPlan_ids_any plans p), ?_⟩
      exact seedPlans_keeps_val rest _ p.id p hc'.1 (upsertPlan_val plans p)
    · exact ih hc'.2 (upsertPlan plans p₀) p hp

/-- Upserting an entry whose id already maps to an identical row is a
no-op. -/
theorem upsertPlan_noop (plans : List Plan) (p : Plan)
    (hex : plans.any (fun q => q.id == p.id) = true)
    (hval : ∀ q ∈ plans, q.id = p.id → q = p) :
    upsertPlan plans p = plans := by
  rw [upsertPlan, if_pos hex]
  have : ∀ q ∈ plans, (if (q.id == p.id) = true then p else q) = id q := by
    intro q hq
    by_cases hc : (q.id == p.id) = true
    · rw [if_pos hc]
      exact (hval q hq (beq_iff_eq.mp hc)).symm
    · rw [if_neg hc]
      rfl
  rw [List.map_congr_left this, List.map_id]

/-- Folding upserts that are all no-ops is a no-op. -/
theorem seedPlans_noop (c : List Plan) (plans : List Plan)
    (h : ∀ p ∈ c, upsertPlan plans p = plans) : seedPlans c plans = plans := by
  induction c with
  | nil => rfl
  | cons p rest ih =>
    rw [seedPlans_cons, h p (List.mem_cons_self p rest)]
    exact ih (fun q hq => h q (List.mem_cons_of_mem p hq))

/-- In a duplicate-free table where some row has id `x` and every such row
equals `r`, filtering by `x` returns exactly `[r]`. -/
theorem filter_eq_single (l : List Plan) (x : String) (r : Plan)
    (hnd : (idsOf l).Nodup)
    (hex : l.any (fun q => q.id == x) = true)
    (hval : ∀ q ∈ l, q.id = x → q = r) :
    l.filter (fun q => q.id == x) = [r] := by
  induction l with
  | nil => cases hex
  | cons q t ih =>
    have hnd' : q.id ∉ idsOf t ∧ (idsOf t).Nodup := by
      rw [idsOf, List.map_cons] at hnd
      exact List.nodup_cons.mp hnd
    by_cases hq : (q.id == x) = true
    · rw [List.filter_cons, if_pos hq]
      have hqr : q = r := hval q (List.mem_cons_self q t) (beq_iff_eq.mp hq)
      have hnone : t.filter (fun s => s.id == x) = [] := by
        rw [List.filter_eq_nil_iff]
        intro s hs hsx
        have : s.id = q.id := (beq_iff_eq.mp hsx).trans (beq_iff_eq.mp hq).symm
        exact hnd'.1 (List.mem_map.mpr ⟨s, hs, this⟩)
      rw [hnone, hqr]
    · rw [List.filter_cons, if_neg hq]
      have hex' : t.any (fun s => s.id == x) = true := by
        rcases (List.any_eq_true.mp hex) with ⟨s, hs, hsx⟩
        rcases List.mem_cons.mp hs with hsq | hst
        · exact absurd (hsq ▸ hsx) (by simpa using hq)
        · exact List.any_eq_true.mpr ⟨s, hst, hsx⟩
      exact ih hnd'.2 hex'
        (fun s hs => hval s (List.mem_cons_of_mem q hs))

/-- C9: seeding `DEFAULT_PLANS` is idempotent from any starting plan table
with unique ids — seeding twice equals seeding once — and after seeding,
each catalog id selects exactly one row, holding the catalog's values. -/
theorem seedPlans_idempotent (s : List Plan) (hs : (idsOf s).Nodup) :
    seedPlans DEFAULT_PLANS (seedPlans DEFAULT_PLANS s) = seedPlans DEFAULT_PLANS s ∧
    ∀ p ∈ DEFAULT_PLANS,
      (seedPlans DEFAULT_PLANS s).filter (fun q => q.id == p.id) = [p] := by
  have hc : (idsOf DEFAULT_PLANS).Nodup := by decide
  have hest := seedPlans_establishes DEFAULT_PLANS hc s
  constructor
  · apply seedPlans_noop
    intro p hp
    exact upsertPlan_noop _ p
      (hest p hp).1 (hest p hp).2
  · intro p hp
    exact filter_eq_single _ p.id p (seedPlans_ids_nodup DEFAULT_PLANS s hs)
      (hest p hp).1 (hest p hp).2

/-- Witness for C9: from the empty table, seeding twice equals seeding once
and the Starter id selects exactly the Starter catalog row. -/
theorem seedPlans_idempotent_witness :
    seedPlans DEFAULT_PLANS (seedPlans DEFAULT_PLANS []) = seedPlans DEFAULT_PLANS [] ∧
    (seedPlans DEFAULT_PLANS []).filter (fun q => q.id == "Starter") = [starterPlan] :=
  ⟨(seedPlans_idempotent [] (by decide)).1,
   by
    have := (seedPlans_idempotent [] (by decide)).2 starterPlan
      (by simp [DEFAULT_PLANS])
    simpa [starterPlan] using this⟩

end VetNexus
